import Mathlib

/-!
Shallow embedding of the `DatabaseTree` explorer component of rbeaver
(`src/ui/database_tree.rs`) together with the value types it stores
(`src/database/traits.rs`, `src/database/connection.rs`).

Rust `HashMap<String, V>` fields are modelled as association lists
`List (String × V)` with first-match lookup; `HashMap::insert` replaces any
existing binding, `HashMap::remove` deletes it, and `HashMap::retain` keeps
the bindings whose key satisfies the predicate.  Rust `Vec` push is list
append at the end.  Rust strings are modelled through their character
sequences: `str::starts_with` is prefix of the char list, `String::is_empty`
is emptiness of the char list, and `to_lowercase`/`contains` are char-wise
lowering and substring search (ASCII case folding, which is what the
witnesses exercise).
-/

namespace RBeaver

/-- First-match lookup in an association list with string keys. -/
def alookup {α : Type _} (k : String) : List (String × α) → Option α
  | [] => none
  | (k2, v) :: rest => if k2 = k then some v else alookup k rest

/-- Remove every binding of key `k` (model of `HashMap::remove`). -/
def aerase {α : Type _} (k : String) : List (String × α) → List (String × α)
  | [] => []
  | (k2, v) :: rest => if k2 = k then aerase k rest else (k2, v) :: aerase k rest

/-- Insert-or-replace a binding (model of `HashMap::insert`). -/
def ainsert {α : Type _} (k : String) (v : α) (m : List (String × α)) :
    List (String × α) :=
  (k, v) :: aerase k m

/-- Keep the bindings whose key satisfies `q` (model of `HashMap::retain`). -/
def retainKeys {α : Type _} (q : String → Bool) : List (String × α) → List (String × α)
  | [] => []
  | (k, v) :: rest => if q k then (k, v) :: retainKeys q rest else retainKeys q rest

/-- Model of Rust `str::starts_with` on the character sequence. -/
def strStartsWith (s pre : String) : Bool :=
  pre.data.isPrefixOf s.data

/-- Substring search on character lists: does `l` contain `pat` contiguously?
Model of Rust `str::contains` with a string pattern. -/
def hasSubstr (pat : List Char) : List Char → Bool
  | [] => pat.isEmpty
  | c :: rest => pat.isPrefixOf (c :: rest) || hasSubstr pat rest

/-- `Schema` (src/database/traits.rs). -/
structure Schema where
  name : String
  owner : Option String
deriving DecidableEq

/-- `Table` (src/database/traits.rs). -/
structure Table where
  name : String
  schema : String
  table_type : String
  comment : Option String
deriving DecidableEq

/-- `Column` (src/database/traits.rs). -/
structure Column where
  name : String
  data_type : String
  is_nullable : Bool
  default_value : Option String
  is_primary_key : Bool
  comment : Option String
deriving DecidableEq

/-- `ViewType` (src/database/traits.rs). -/
inductive ViewType where
  | Regular
  | Materialized
deriving DecidableEq

/-- `View` (src/database/traits.rs). -/
structure View where
  name : String
  schema : String
  view_type : ViewType
  definition : Option String
  comment : Option String
  owner : Option String
  is_updatable : Bool
deriving DecidableEq

/-- `FunctionType` (src/database/traits.rs). -/
inductive FunctionType where
  | Function
  | Procedure
  | Aggregate
  | Window
deriving DecidableEq

/-- `ArgumentMode` (src/database/traits.rs). -/
inductive ArgumentMode where
  | In
  | Out
  | InOut
  | Variadic
deriving DecidableEq

/-- `FunctionArgument` (src/database/traits.rs). -/
structure FunctionArgument where
  name : Option String
  data_type : String
  mode : ArgumentMode
  default_value : Option String
deriving DecidableEq

/-- `Function` (src/database/traits.rs). -/
structure Function where
  name : String
  schema : String
  function_type : FunctionType
  return_type : String
  arguments : List FunctionArgument
  language : String
  definition : Option String
  comment : Option String
  owner : Option String
deriving DecidableEq

/-- `TriggerType` (src/database/traits.rs). -/
inductive TriggerType where
  | Row
  | Statement
deriving DecidableEq

/-- `TriggerEvent` (src/database/traits.rs). -/
inductive TriggerEvent where
  | Insert
  | Update
  | Delete
  | Truncate
deriving DecidableEq

/-- `TriggerTiming` (src/database/traits.rs). -/
inductive TriggerTiming where
  | Before
  | After
  | InsteadOf
deriving DecidableEq

/-- `Trigger` (src/database/traits.rs). -/
structure Trigger where
  name : String
  schema : String
  table_name : String
  trigger_type : TriggerType
  events : List TriggerEvent
  timing : TriggerTiming
  function_name : String
  function_schema : String
  condition : Option String
  comment : Option String
deriving DecidableEq

/-- `Sequence` (src/database/traits.rs). -/
structure Sequence where
  name : String
  schema : String
  data_type : String
  start_value : Int
  min_value : Option Int
  max_value : Option Int
  increment : Int
  cycle : Bool
  cache_size : Int
  last_value : Option Int
  owner_table : Option String
  owner_column : Option String
  comment : Option String
deriving DecidableEq

/-- `IndexType` (src/database/traits.rs). -/
inductive IndexType where
  | BTree
  | Hash
  | Gist
  | Gin
  | Spgist
  | Brin
deriving DecidableEq

/-- `SortDirection` (src/database/traits.rs). -/
inductive SortDirection where
  | Ascending
  | Descending
deriving DecidableEq

/-- `NullsOrder` (src/database/traits.rs). -/
inductive NullsOrder where
  | First
  | Last
deriving DecidableEq

/-- `IndexColumn` (src/database/traits.rs). -/
structure IndexColumn where
  name : String
  position : Int
  direction : Option SortDirection
  nulls_order : Option NullsOrder
deriving DecidableEq

/-- `Index` (src/database/traits.rs). -/
structure Index where
  name : String
  schema : String
  table_name : String
  index_type : IndexType
  columns : List IndexColumn
  is_unique : Bool
  is_primary : Bool
  is_partial : Bool
  condition : Option String
  size : Option Int
  comment : Option String
deriving DecidableEq

/-- `ObjectCounts` (src/database/traits.rs); all counts default to zero. -/
structure ObjectCounts where
  tables : Nat
  views : Nat
  materialized_views : Nat
  functions : Nat
  procedures : Nat
  triggers : Nat
  sequences : Nat
  indexes : Nat
deriving DecidableEq

/-- `ObjectCounts::default()` (derived `Default`): every count is zero. -/
def defaultCounts : ObjectCounts :=
  { tables := 0, views := 0, materialized_views := 0, functions := 0,
    procedures := 0, triggers := 0, sequences := 0, indexes := 0 }

/-- `ObjectCategory` (src/database/traits.rs). -/
inductive ObjectCategory where
  | Tables
  | Views
  | Functions
  | Triggers
  | Sequences
  | Indexes
  | SystemCatalog
deriving DecidableEq

/-- The `{:?}` (Debug) rendering of an `ObjectCategory`, used to build the
expansion-state key `connection_id.schema.category`. -/
def categoryDebugName : ObjectCategory → String
  | .Tables => "Tables"
  | .Views => "Views"
  | .Functions => "Functions"
  | .Triggers => "Triggers"
  | .Sequences => "Sequences"
  | .Indexes => "Indexes"
  | .SystemCatalog => "SystemCatalog"

/-- `DatabaseType` (src/database/connection.rs). -/
inductive DatabaseType where
  | PostgreSQL
  | MySQL
  | SQLite
deriving DecidableEq

/-- `SslMode` (src/database/connection.rs). -/
inductive SslMode where
  | Disable
  | Allow
  | Prefer
  | Require
  | VerifyCa
  | VerifyFull
deriving DecidableEq

/-- `ConnectionParams` (src/database/connection.rs). -/
structure ConnectionParams where
  id : String
  name : String
  database_type : DatabaseType
  host : String
  port : Nat
  database : String
  username : String
  password : String
  ssl_mode : SslMode
  connection_timeout : Option Nat
  additional_params : List (String × String)
deriving DecidableEq

/-- `ConnectionNode` (src/ui/database_tree.rs). -/
structure ConnectionNode where
  connection_id : String
  connection_name : String
  schemas : List Schema
  tables : List (String × List Table)
  columns : List (String × List Column)
  views : List (String × List View)
  functions : List (String × List Function)
  triggers : List (String × List Trigger)
  sequences : List (String × List Sequence)
  indexes : List (String × List Index)
  object_counts : List (String × ObjectCounts)
  is_connected : Bool
deriving DecidableEq

/-- `ConnectionNode::new` (src/ui/database_tree.rs). -/
def ConnectionNode.new (connection_id connection_name : String) : ConnectionNode :=
  { connection_id := connection_id
    connection_name := connection_name
    schemas := []
    tables := []
    columns := []
    views := []
    functions := []
    triggers := []
    sequences := []
    indexes := []
    object_counts := []
    is_connected := false }

/-- `TreeItem` (src/ui/database_tree.rs). -/
inductive TreeItem where
  | SavedConnection (id : String)
  | Connection (id : String)
  | SchemaItem (connection_id : String) (schema : String)
  | ObjectCategoryItem (connection_id : String) (schema : String)
      (category : ObjectCategory)
  | TableItem (connection_id : String) (schema : String) (table : String)
  | ViewItem (connection_id : String) (schema : String) (view : String)
  | FunctionItem (connection_id : String) (schema : String) (function : String)
  | TriggerItem (connection_id : String) (schema : String) (trigger : String)
  | SequenceItem (connection_id : String) (schema : String) (sequence : String)
  | IndexItem (connection_id : String) (schema : String) (index : String)
  | ColumnItem (connection_id : String) (schema : String) (table : String)
      (column : String)
deriving DecidableEq

/-- `ConnectionAction` (src/ui/database_tree.rs). -/
inductive ConnectionAction where
  | Connect
  | Edit
  | Duplicate
  | Delete
  | CopyUrl
deriving DecidableEq

/-- `DatabaseTree` (src/ui/database_tree.rs). -/
structure DatabaseTree where
  connections : List (String × ConnectionNode)
  saved_connections : List ConnectionParams
  expanded_connections : List (String × Bool)
  expanded_saved_connections : List (String × Bool)
  expanded_schemas : List (String × Bool)
  expanded_object_categories : List (String × Bool)
  expanded_tables : List (String × Bool)
  selected_item : Option TreeItem
  search_text : String
  show_search : Bool
  is_loading : Bool
  schemas_needing_tables : List (String × String)
  schemas_needing_objects : List (String × String × ObjectCategory)
  tables_needing_columns : List (String × String × String)
  pending_action : Option (ConnectionAction × String)
deriving DecidableEq

/-- `DatabaseTree::default` (src/ui/database_tree.rs). -/
def DatabaseTree.empty : DatabaseTree :=
  { connections := []
    saved_connections := []
    expanded_connections := []
    expanded_saved_connections := []
    expanded_schemas := []
    expanded_object_categories := []
    expanded_tables := []
    selected_item := none
    search_text := ""
    show_search := false
    is_loading := false
    schemas_needing_tables := []
    schemas_needing_objects := []
    tables_needing_columns := []
    pending_action := none }

/-- `DatabaseTree::matches_search` (src/ui/database_tree.rs): empty filter
matches everything, otherwise case-insensitive substring containment of the
filter text in the name. -/
def DatabaseTree.matches_search (t : DatabaseTree) (name : String) : Bool :=
  if t.search_text.data = [] then true
  else hasSubstr (t.search_text.data.map Char.toLower) (name.data.map Char.toLower)

/-- `DatabaseTree::category_has_matches` (src/ui/database_tree.rs): with an
active filter, whether any already-cached object of the category under the
given schema matches; an absent cache entry (and `SystemCatalog`) yields
`false`. -/
def DatabaseTree.category_has_matches (t : DatabaseTree) (connection_id : String)
    (schema_name : String) (category : ObjectCategory) : Bool :=
  if t.search_text.data = [] then true
  else
    match alookup connection_id t.connections with
    | none => false
    | some conn =>
      match category with
      | .Tables =>
        match alookup schema_name conn.tables with
        | some tables => tables.any (fun tbl => t.matches_search tbl.name)
        | none => false
      | .Views =>
        match alookup schema_name conn.views with
        | some views => views.any (fun v => t.matches_search v.name)
        | none => false
      | .Functions =>
        match alookup schema_name conn.functions with
        | some functions => functions.any (fun f => t.matches_search f.name)
        | none => false
      | .Triggers =>
        match alookup schema_name conn.triggers with
        | some triggers => triggers.any (fun tr => t.matches_search tr.name)
        | none => false
      | .Sequences =>
        match alookup schema_name conn.sequences with
        | some sequences => sequences.any (fun sq => t.matches_search sq.name)
        | none => false
      | .Indexes =>
        match alookup schema_name conn.indexes with
        | some indexes => indexes.any (fun ix => t.matches_search ix.name)
        | none => false
      | .SystemCatalog => false

/-- The per-category count computed at the top of
`DatabaseTree::render_object_category` (src/ui/database_tree.rs): Views
aggregates regular plus materialized views, Functions aggregates functions
plus procedures, `SystemCatalog` is hard-coded to zero. -/
def categoryCount (category : ObjectCategory) (counts : ObjectCounts) : Nat :=
  match category with
  | .Tables => counts.tables
  | .Views => counts.views + counts.materialized_views
  | .Functions => counts.functions + counts.procedures
  | .Triggers => counts.triggers
  | .Sequences => counts.sequences
  | .Indexes => counts.indexes
  | .SystemCatalog => 0

/-- The `ObjectCounts` value `render_schema_node` passes down
(src/ui/database_tree.rs): the schema's entry in `object_counts`, or the
all-zero default when the connection or the entry is absent. -/
def DatabaseTree.countsFor (t : DatabaseTree) (connection_id schema_name : String) :
    ObjectCounts :=
  ((alookup connection_id t.connections).bind
    (fun conn => alookup schema_name conn.object_counts)).getD defaultCounts

/-- The two early returns of `DatabaseTree::render_object_category`
(src/ui/database_tree.rs): a category header is rendered unless its count is
zero, or a filter is active and no cached member matches. -/
def DatabaseTree.categoryRendered (t : DatabaseTree) (connection_id : String)
    (schema_name : String) (category : ObjectCategory) (counts : ObjectCounts) :
    Bool :=
  if categoryCount category counts = 0 then false
  else if ¬ t.search_text.data = [] ∧
      ¬ t.category_has_matches connection_id schema_name category = true then false
  else true

/-- The expansion flag read by `render_object_category`
(src/ui/database_tree.rs): keyed by `connection_id.schema.category` with the
`{:?}` category name, defaulting to closed. -/
def DatabaseTree.categoryExpanded (t : DatabaseTree) (connection_id : String)
    (schema_name : String) (category : ObjectCategory) : Bool :=
  (alookup (connection_id ++ "." ++ schema_name ++ "." ++ categoryDebugName category)
    t.expanded_object_categories).getD false

/-- The click handler at the end of `DatabaseTree::render_object_category`
(src/ui/database_tree.rs): toggle the expansion flag; on the closed-to-open
transition, for `Tables` enqueue `(connection, schema)` only when the
connection exists and its tables cache entry for the schema is absent, and
for every other category enqueue `(connection, schema, category)`
unconditionally. -/
def DatabaseTree.clickObjectCategory (t : DatabaseTree) (connection_id : String)
    (schema_name : String) (category : ObjectCategory) : DatabaseTree :=
  let category_key :=
    connection_id ++ "." ++ schema_name ++ "." ++ categoryDebugName category
  let category_expanded := (alookup category_key t.expanded_object_categories).getD false
  let new_state := ! category_expanded
  let t1 := { t with
    expanded_object_categories :=
      ainsert category_key new_state t.expanded_object_categories }
  if new_state then
    match category with
    | .Tables =>
      match alookup connection_id t1.connections with
      | some conn =>
        if alookup schema_name conn.tables = none then
          { t1 with schemas_needing_tables :=
              t1.schemas_needing_tables ++ [(connection_id, schema_name)] }
        else t1
      | none => t1
    | _ =>
      { t1 with schemas_needing_objects :=
          t1.schemas_needing_objects ++ [(connection_id, schema_name, category)] }
  else t1

/-- The names of the leaves rendered by
`DatabaseTree::render_objects_in_category` (src/ui/database_tree.rs): the
cached list of the category filtered through `matches_search`; nothing is
rendered when the connection or the cache entry is absent. -/
def DatabaseTree.renderedNamesInCategory (t : DatabaseTree) (connection_id : String)
    (schema_name : String) (category : ObjectCategory) : List String :=
  match alookup connection_id t.connections with
  | none => []
  | some conn =>
    match category with
    | .Tables =>
      match alookup schema_name conn.tables with
      | some tables =>
        (tables.filter (fun tbl => t.matches_search tbl.name)).map Table.name
      | none => []
    | .Views =>
      match alookup schema_name conn.views with
      | some views =>
        (views.filter (fun v => t.matches_search v.name)).map View.name
      | none => []
    | .Functions =>
      match alookup schema_name conn.functions with
      | some functions =>
        (functions.filter (fun f => t.matches_search f.name)).map Function.name
      | none => []
    | .Triggers =>
      match alookup schema_name conn.triggers with
      | some triggers =>
        (triggers.filter (fun tr => t.matches_search tr.name)).map Trigger.name
      | none => []
    | .Sequences =>
      match alookup schema_name conn.sequences with
      | some sequences =>
        (sequences.filter (fun sq => t.matches_search sq.name)).map Sequence.name
      | none => []
    | .Indexes =>
      match alookup schema_name conn.indexes with
      | some indexes =>
        (indexes.filter (fun ix => t.matches_search ix.name)).map Index.name
      | none => []
    | .SystemCatalog => []

/-- The raw cached name list of a category (no filtering), used to state
facts about what is loaded. -/
def DatabaseTree.cachedNamesInCategory (t : DatabaseTree) (connection_id : String)
    (schema_name : String) (category : ObjectCategory) : List String :=
  match alookup connection_id t.connections with
  | none => []
  | some conn =>
    match category with
    | .Tables => ((alookup schema_name conn.tables).getD []).map Table.name
    | .Views => ((alookup schema_name conn.views).getD []).map View.name
    | .Functions => ((alookup schema_name conn.functions).getD []).map Function.name
    | .Triggers => ((alookup schema_name conn.triggers).getD []).map Trigger.name
    | .Sequences => ((alookup schema_name conn.sequences).getD []).map Sequence.name
    | .Indexes => ((alookup schema_name conn.indexes).getD []).map Index.name
    | .SystemCatalog => []

/-- The column leaves rendered inside `DatabaseTree::render_table_node`
(src/ui/database_tree.rs): every cached column under the key
`schema.table` is rendered, with no `matches_search` filtering; an absent
cache entry renders none (a loading label instead). -/
def DatabaseTree.renderedColumns (t : DatabaseTree) (connection_id : String)
    (schema_name : String) (table : Table) : List Column :=
  match alookup connection_id t.connections with
  | none => []
  | some conn =>
    (alookup (schema_name ++ "." ++ table.name) conn.columns).getD []

/-- The columns-cache lookup performed by `render_table_node`
(src/ui/database_tree.rs): key is the concatenation `schema.table`. -/
def DatabaseTree.lookupColumns (t : DatabaseTree) (connection_id : String)
    (schema_name table_name : String) : Option (List Column) :=
  (alookup connection_id t.connections).bind
    (fun conn => alookup (schema_name ++ "." ++ table_name) conn.columns)

/-- The `if let Some(connection) = self.connections.get_mut(id)` pattern
shared by the cache setters (src/ui/database_tree.rs): update the node when
the connection exists, otherwise leave the tree untouched. -/
def DatabaseTree.updateConnection (t : DatabaseTree) (connection_id : String)
    (f : ConnectionNode → ConnectionNode) : DatabaseTree :=
  match alookup connection_id t.connections with
  | some conn =>
    { t with connections := ainsert connection_id (f conn) t.connections }
  | none => t

/-- `DatabaseTree::set_schemas` (src/ui/database_tree.rs); note that
`is_loading` is reset unconditionally, even for an unknown connection id. -/
def DatabaseTree.set_schemas (t : DatabaseTree) (connection_id : String)
    (schemas : List Schema) : DatabaseTree :=
  let t1 := t.updateConnection connection_id (fun conn => { conn with schemas := schemas })
  { t1 with is_loading := false }

/-- `DatabaseTree::set_tables` (src/ui/database_tree.rs). -/
def DatabaseTree.set_tables (t : DatabaseTree) (connection_id : String)
    (schema : String) (tables : List Table) : DatabaseTree :=
  t.updateConnection connection_id
    (fun conn => { conn with tables := ainsert schema tables conn.tables })

/-- `DatabaseTree::set_columns` (src/ui/database_tree.rs): the cache key is
the concatenation `schema.table`. -/
def DatabaseTree.set_columns (t : DatabaseTree) (connection_id : String)
    (schema table : String) (columns : List Column) : DatabaseTree :=
  t.updateConnection connection_id
    (fun conn => { conn with
      columns := ainsert (schema ++ "." ++ table) columns conn.columns })

/-- `DatabaseTree::set_views` (src/ui/database_tree.rs). -/
def DatabaseTree.set_views (t : DatabaseTree) (connection_id : String)
    (schema : String) (views : List View) : DatabaseTree :=
  t.updateConnection connection_id
    (fun conn => { conn with views := ainsert schema views conn.views })

/-- `DatabaseTree::set_functions` (src/ui/database_tree.rs). -/
def DatabaseTree.set_functions (t : DatabaseTree) (connection_id : String)
    (schema : String) (functions : List Function) : DatabaseTree :=
  t.updateConnection connection_id
    (fun conn => { conn with functions := ainsert schema functions conn.functions })

/-- `DatabaseTree::set_triggers` (src/ui/database_tree.rs). -/
def DatabaseTree.set_triggers (t : DatabaseTree) (connection_id : String)
    (schema : String) (triggers : List Trigger) : DatabaseTree :=
  t.updateConnection connection_id
    (fun conn => { conn with triggers := ainsert schema triggers conn.triggers })

/-- `DatabaseTree::set_sequences` (src/ui/database_tree.rs). -/
def DatabaseTree.set_sequences (t : DatabaseTree) (connection_id : String)
    (schema : String) (sequences : List Sequence) : DatabaseTree :=
  t.updateConnection connection_id
    (fun conn => { conn with sequences := ainsert schema sequences conn.sequences })

/-- `DatabaseTree::set_indexes` (src/ui/database_tree.rs). -/
def DatabaseTree.set_indexes (t : DatabaseTree) (connection_id : String)
    (schema : String) (indexes : List Index) : DatabaseTree :=
  t.updateConnection connection_id
    (fun conn => { conn with indexes := ainsert schema indexes conn.indexes })

/-- `DatabaseTree::set_object_counts` (src/ui/database_tree.rs). -/
def DatabaseTree.set_object_counts (t : DatabaseTree) (connection_id : String)
    (schema : String) (counts : ObjectCounts) : DatabaseTree :=
  t.updateConnection connection_id
    (fun conn => { conn with object_counts := ainsert schema counts conn.object_counts })

/-- `DatabaseTree::remove_connection` (src/ui/database_tree.rs): drop the
node and its own expansion flag, and retain only the schema and table
expansion entries whose key does not start with `connection_id.`; the
object-category expansion map is not touched by the source. -/
def DatabaseTree.remove_connection (t : DatabaseTree) (connection_id : String) :
    DatabaseTree :=
  { t with
    connections := aerase connection_id t.connections
    expanded_connections := aerase connection_id t.expanded_connections
    expanded_schemas :=
      retainKeys (fun key => ! strStartsWith key (connection_id ++ "."))
        t.expanded_schemas
    expanded_tables :=
      retainKeys (fun key => ! strStartsWith key (connection_id ++ "."))
        t.expanded_tables }

/-- `DatabaseTree::clear` (src/ui/database_tree.rs). -/
def DatabaseTree.clear (t : DatabaseTree) : DatabaseTree :=
  { t with
    connections := []
    expanded_connections := []
    expanded_schemas := []
    expanded_object_categories := []
    expanded_tables := []
    selected_item := none
    is_loading := false }

/-- `DatabaseTree::get_schemas_needing_tables` (src/ui/database_tree.rs):
return the queue and clear it. -/
def DatabaseTree.get_schemas_needing_tables (t : DatabaseTree) :
    List (String × String) × DatabaseTree :=
  (t.schemas_needing_tables, { t with schemas_needing_tables := [] })

/-- `DatabaseTree::get_schemas_needing_objects` (src/ui/database_tree.rs):
return the queue and clear it. -/
def DatabaseTree.get_schemas_needing_objects (t : DatabaseTree) :
    List (String × String × ObjectCategory) × DatabaseTree :=
  (t.schemas_needing_objects, { t with schemas_needing_objects := [] })

/-- `DatabaseTree::get_tables_needing_columns` (src/ui/database_tree.rs):
return the queue and clear it. -/
def DatabaseTree.get_tables_needing_columns (t : DatabaseTree) :
    List (String × String × String) × DatabaseTree :=
  (t.tables_needing_columns, { t with tables_needing_columns := [] })

/-- The `self.pending_action = Some((action, id))` assignments in
`DatabaseTree::render_saved_connection_node` (src/ui/database_tree.rs). -/
def DatabaseTree.setPendingAction (t : DatabaseTree) (action : ConnectionAction)
    (connection_id : String) : DatabaseTree :=
  { t with pending_action := some (action, connection_id) }

/-- `DatabaseTree::get_pending_action` (src/ui/database_tree.rs):
`Option::take` semantics. -/
def DatabaseTree.get_pending_action (t : DatabaseTree) :
    Option (ConnectionAction × String) × DatabaseTree :=
  (t.pending_action, { t with pending_action := none })

/-! ### Concrete sample states used by counterexamples and witnesses -/

/-- A connection node whose Views cache entry for schema `public` exists and
is the empty list. -/
def viewsCachedConn : ConnectionNode :=
  { ConnectionNode.new "c1" "demo" with views := [("public", [])] }

/-- A tree holding `viewsCachedConn` under connection id `c1`. -/
def viewsCachedTree : DatabaseTree :=
  { DatabaseTree.empty with connections := [("c1", viewsCachedConn)] }

/-- A connection node with no cached tables. -/
def emptyTablesConn : ConnectionNode := ConnectionNode.new "c1" "demo"

/-- A tree holding `emptyTablesConn` under connection id `c1`. -/
def tablesTree : DatabaseTree :=
  { DatabaseTree.empty with connections := [("c1", emptyTablesConn)] }

/-- A tree with an expanded object-category entry keyed under connection
`c1`. -/
def removalTree : DatabaseTree :=
  { DatabaseTree.empty with
    connections := [("c1", ConnectionNode.new "c1" "demo")]
    expanded_object_categories := [("c1.public.Tables", true)] }

/-- A tree whose loading flag is raised and which has no connections. -/
def loadingTree : DatabaseTree := { DatabaseTree.empty with is_loading := true }

/-- A sample column named `x`. -/
def colX : Column :=
  { name := "x", data_type := "integer", is_nullable := true,
    default_value := none, is_primary_key := false, comment := none }

/-- A sample column named `y`. -/
def colY : Column := { colX with name := "y" }

/-- A tree with one fresh connection `c1`, used for columns-cache claims. -/
def columnsTree : DatabaseTree :=
  { DatabaseTree.empty with connections := [("c1", ConnectionNode.new "c1" "demo")] }

/-- A sample table named `users` in schema `public`. -/
def usersTable : Table :=
  { name := "users", schema := "public", table_type := "BASE TABLE", comment := none }

/-- A connection node with table `users` cached for `public` and the column
`x` cached under the composite key `public.users`. -/
def searchConn : ConnectionNode :=
  { ConnectionNode.new "c1" "demo" with
    tables := [("public", [usersTable])]
    columns := [("public.users", [colX])] }

/-- A tree with connection `c1` and the active search filter `users`. -/
def searchTree : DatabaseTree :=
  { DatabaseTree.empty with
    connections := [("c1", searchConn)]
    search_text := "users" }

/-! ### Helper lemmas about the map model and substring search -/

theorem alookup_aerase_self {α : Type _} (k : String) (m : List (String × α)) :
    alookup k (aerase k m) = none := by
  induction m with
  | nil => rfl
  | cons p rest ih =>
    obtain ⟨k2, v⟩ := p
    by_cases h : k2 = k
    · simpa [aerase, h] using ih
    · simpa [aerase, alookup, h] using ih

theorem alookup_aerase_ne {α : Type _} {k2 k : String} (h : k2 ≠ k)
    (m : List (String × α)) : alookup k (aerase k2 m) = alookup k m := by
  induction m with
  | nil => rfl
  | cons p rest ih =>
    obtain ⟨k3, v⟩ := p
    by_cases h3 : k3 = k2
    · subst h3
      simpa [aerase, alookup, h] using ih
    · simp [aerase, alookup, h3, ih]

theorem alookup_ainsert_self {α : Type _} (k : String) (v : α)
    (m : List (String × α)) : alookup k (ainsert k v m) = some v := by
  simp [ainsert, alookup]

theorem alookup_ainsert_ne {α : Type _} {k2 k : String} (h : k2 ≠ k) (v : α)
    (m : List (String × α)) : alookup k (ainsert k2 v m) = alookup k m := by
  simp [ainsert, alookup, h]
  exact alookup_aerase_ne h m

theorem alookup_retainKeys_eq_none {α : Type _} {q : String → Bool} {k : String}
    (h : q k = false) (m : List (String × α)) :
    alookup k (retainKeys q m) = none := by
  induction m with
  | nil => rfl
  | cons p rest ih =>
    obtain ⟨k2, v⟩ := p
    by_cases hq : q k2 = true
    · have hne : ¬ k2 = k := by
        intro he
        rw [he, h] at hq
        exact Bool.false_ne_true hq
      simpa [retainKeys, hq, alookup, hne] using ih
    · simpa [retainKeys, hq] using ih

theorem isPrefixOf_eq_true_iff (p l : List Char) :
    p.isPrefixOf l = true ↔ ∃ post, l = p ++ post := by
  induction p generalizing l with
  | nil => simp [List.isPrefixOf]
  | cons c p ih =>
    cases l with
    | nil => simp [List.isPrefixOf]
    | cons d l2 =>
      simp only [List.isPrefixOf, Bool.and_eq_true, beq_iff_eq, ih,
        List.cons_append, List.cons.injEq]
      constructor
      · rintro ⟨h1, post, h2⟩
        exact ⟨post, h1.symm, h2⟩
      · rintro ⟨post, h1, h2⟩
        exact ⟨h1.symm, post, h2⟩

theorem hasSubstr_eq_true_iff (pat l : List Char) :
    hasSubstr pat l = true ↔ ∃ pre post, l = pre ++ pat ++ post := by
  induction l with
  | nil =>
    simp only [hasSubstr, List.isEmpty_iff]
    constructor
    · intro h
      exact ⟨[], [], by simp [h]⟩
    · rintro ⟨pre, post, h⟩
      rcases List.append_eq_nil.mp (List.append_eq_nil.mp h.symm).1 with ⟨-, hpat⟩
      exact hpat
  | cons c rest ih =>
    simp only [hasSubstr, Bool.or_eq_true, isPrefixOf_eq_true_iff, ih]
    constructor
    · rintro (⟨post, h⟩ | ⟨pre, post, h⟩)
      · exact ⟨[], post, by simpa using h⟩
      · exact ⟨c :: pre, post, by simp [h]⟩
    · rintro ⟨pre, post, h⟩
      cases pre with
      | nil =>
        left
        exact ⟨post, by simpa using h⟩
      | cons d pre2 =>
        right
        rcases List.cons.injEq .. ▸ h with ⟨-, h2⟩
        exact ⟨pre2, post, h2⟩

/-- `matches_search` agrees with the specification-level reading: the empty
filter matches everything, otherwise the lowered filter text occurs
contiguously inside the lowered name. -/
theorem matches_search_eq_true_iff (t : DatabaseTree) (name : String) :
    t.matches_search name = true ↔
      (t.search_text.data = [] ∨
        ∃ pre post, name.data.map Char.toLower =
          pre ++ t.search_text.data.map Char.toLower ++ post) := by
  unfold DatabaseTree.matches_search
  by_cases hs : t.search_text.data = []
  · simp [hs]
  · simp [hs, hasSubstr_eq_true_iff]

/-- Membership in a name-filtered, name-projected list. -/
theorem mem_filtered_names {α : Type _} (t : DatabaseTree) (l : List α)
    (f : α → String) (name : String) :
    (name ∈ (l.filter (fun x => t.matches_search (f x))).map f) ↔
      (name ∈ l.map f ∧ t.matches_search name = true) := by
  simp only [List.mem_map, List.mem_filter]
  constructor
  · rintro ⟨x, ⟨hx, hm⟩, rfl⟩
    exact ⟨⟨x, hx, rfl⟩, hm⟩
  · rintro ⟨⟨x, hx, rfl⟩, hm⟩
    exact ⟨x, ⟨hx, hm⟩, rfl⟩

/-- `List.any` over a name predicate, read through the projected name list. -/
theorem any_matches_names {α : Type _} (t : DatabaseTree) (l : List α)
    (f : α → String) :
    (l.any (fun x => t.matches_search (f x)) = true) ↔
      ∃ name ∈ l.map f, t.matches_search name = true := by
  simp only [List.any_eq_true, List.mem_map]
  constructor
  · rintro ⟨x, hx, hm⟩
    exact ⟨f x, ⟨x, hx, rfl⟩, hm⟩
  · rintro ⟨name, ⟨x, hx, rfl⟩, hm⟩
    exact ⟨x, hx, hm⟩

/-! ### Characterization of the category click handler -/

theorem clickObjectCategory_of_open (t : DatabaseTree) (cid schema : String)
    (cat : ObjectCategory)
    (hopen : t.categoryExpanded cid schema cat = true) :
    t.clickObjectCategory cid schema cat =
      { t with
        expanded_object_categories :=
          ainsert (cid ++ "." ++ schema ++ "." ++ categoryDebugName cat) false
            t.expanded_object_categories } := by
  rw [DatabaseTree.categoryExpanded] at hopen
  unfold DatabaseTree.clickObjectCategory
  simp [hopen]

theorem clickObjectCategory_of_closed_tables_absent (t : DatabaseTree)
    (cid schema : String) (conn : ConnectionNode)
    (hclosed : t.categoryExpanded cid schema ObjectCategory.Tables = false)
    (hconn : alookup cid t.connections = some conn)
    (habsent : alookup schema conn.tables = none) :
    t.clickObjectCategory cid schema ObjectCategory.Tables =
      { t with
        expanded_object_categories :=
          ainsert (cid ++ "." ++ schema ++ "." ++ "Tables") true
            t.expanded_object_categories
        schemas_needing_tables :=
          t.schemas_needing_tables ++ [(cid, schema)] } := by
  rw [DatabaseTree.categoryExpanded] at hclosed
  unfold DatabaseTree.clickObjectCategory
  simp only [categoryDebugName] at hclosed ⊢
  simp [hclosed, hconn, habsent]

theorem clickObjectCategory_of_closed_tables_present (t : DatabaseTree)
    (cid schema : String) (conn : ConnectionNode) (rows : List Table)
    (hclosed : t.categoryExpanded cid schema ObjectCategory.Tables = false)
    (hconn : alookup cid t.connections = some conn)
    (hpresent : alookup schema conn.tables = some rows) :
    t.clickObjectCategory cid schema ObjectCategory.Tables =
      { t with
        expanded_object_categories :=
          ainsert (cid ++ "." ++ schema ++ "." ++ "Tables") true
            t.expanded_object_categories } := by
  rw [DatabaseTree.categoryExpanded] at hclosed
  unfold DatabaseTree.clickObjectCategory
  simp only [categoryDebugName] at hclosed ⊢
  simp [hclosed, hconn, hpresent]

theorem clickObjectCategory_of_closed_tables_noconn (t : DatabaseTree)
    (cid schema : String)
    (hclosed : t.categoryExpanded cid schema ObjectCategory.Tables = false)
    (hconn : alookup cid t.connections = none) :
    t.clickObjectCategory cid schema ObjectCategory.Tables =
      { t with
        expanded_object_categories :=
          ainsert (cid ++ "." ++ schema ++ "." ++ "Tables") true
            t.expanded_object_categories } := by
  rw [DatabaseTree.categoryExpanded] at hclosed
  unfold DatabaseTree.clickObjectCategory
  simp only [categoryDebugName] at hclosed ⊢
  simp [hclosed, hconn]

theorem clickObjectCategory_of_closed_other (t : DatabaseTree)
    (cid schema : String) (cat : ObjectCategory)
    (hclosed : t.categoryExpanded cid schema cat = false)
    (hcat : cat ≠ ObjectCategory.Tables) :
    t.clickObjectCategory cid schema cat =
      { t with
        expanded_object_categories :=
          ainsert (cid ++ "." ++ schema ++ "." ++ categoryDebugName cat) true
            t.expanded_object_categories
        schemas_needing_objects :=
          t.schemas_needing_objects ++ [(cid, schema, cat)] } := by
  rw [DatabaseTree.categoryExpanded] at hclosed
  unfold DatabaseTree.clickObjectCategory
  cases cat with
  | Tables => exact absurd rfl hcat
  | Views => simp [hclosed]
  | Functions => simp [hclosed]
  | Triggers => simp [hclosed]
  | Sequences => simp [hclosed]
  | Indexes => simp [hclosed]
  | SystemCatalog => simp [hclosed]

/-! ### Category visibility, read through the specification-level predicates -/

theorem category_has_matches_iff (t : DatabaseTree) (cid schema : String)
    (cat : ObjectCategory) :
    t.category_has_matches cid schema cat = true ↔
      (t.search_text.data = [] ∨
        ∃ name ∈ t.cachedNamesInCategory cid schema cat,
          t.matches_search name = true) := by
  unfold DatabaseTree.category_has_matches DatabaseTree.cachedNamesInCategory
  by_cases hs : t.search_text.data = []
  · simp [hs]
  · rw [if_neg hs]
    cases hc : alookup cid t.connections with
    | none => simp [hs]
    | some conn =>
      dsimp only
      cases cat with
      | Tables =>
        cases ht : alookup schema conn.tables with
        | none => simp [hs]
        | some l =>
          dsimp only
          simp only [hs, false_or, Option.getD_some]
          exact any_matches_names t l Table.name
      | Views =>
        cases ht : alookup schema conn.views with
        | none => simp [hs]
        | some l =>
          dsimp only
          simp only [hs, false_or, Option.getD_some]
          exact any_matches_names t l View.name
      | Functions =>
        cases ht : alookup schema conn.functions with
        | none => simp [hs]
        | some l =>
          dsimp only
          simp only [hs, false_or, Option.getD_some]
          exact any_matches_names t l Function.name
      | Triggers =>
        cases ht : alookup schema conn.triggers with
        | none => simp [hs]
        | some l =>
          dsimp only
          simp only [hs, false_or, Option.getD_some]
          exact any_matches_names t l Trigger.name
      | Sequences =>
        cases ht : alookup schema conn.sequences with
        | none => simp [hs]
        | some l =>
          dsimp only
          simp only [hs, false_or, Option.getD_some]
          exact any_matches_names t l Sequence.name
      | Indexes =>
        cases ht : alookup schema conn.indexes with
        | none => simp [hs]
        | some l =>
          dsimp only
          simp only [hs, false_or, Option.getD_some]
          exact any_matches_names t l Index.name
      | SystemCatalog => simp [hs]

theorem categoryRendered_eq_true_iff (t : DatabaseTree) (cid schema : String)
    (cat : ObjectCategory) (counts : ObjectCounts) :
    t.categoryRendered cid schema cat counts = true ↔
      categoryCount cat counts ≠ 0 ∧
        (t.search_text.data = [] ∨
          t.category_has_matches cid schema cat = true) := by
  unfold DatabaseTree.categoryRendered
  by_cases h0 : categoryCount cat counts = 0
  · simp [h0]
  · rw [if_neg h0]
    by_cases hs : t.search_text.data = []
    · simp [h0, hs]
    · by_cases hm : t.category_has_matches cid schema cat = true
      · simp [h0, hs, hm]
      · simp [h0, hs, hm]

/-! ### Claim C2 -/

/-- C2 counterexample: the object-category expansion key `c1.public.Tables`
is prefixed by `c1.`, yet it survives `remove_connection "c1"` — the source
prunes only the schema and table expansion maps, not the object-category
map. -/
theorem C2_counterexample :
    strStartsWith "c1.public.Tables" ("c1" ++ ".") = true ∧
    alookup "c1.public.Tables"
      ((removalTree.remove_connection "c1").expanded_object_categories) =
      some true :=
  ⟨rfl, rfl⟩

/-- C2 (amended): `remove_connection id` deletes the connections entry and
the connection's own expansion flag, and prunes every schema-expansion and
table-expansion entry whose key starts with `id.`, but it leaves the
object-category expansion map completely untouched. -/
theorem C2_remove_connection_pruning (t : DatabaseTree) (cid : String) :
    alookup cid (t.remove_connection cid).connections = none ∧
    alookup cid (t.remove_connection cid).expanded_connections = none ∧
    (∀ key, strStartsWith key (cid ++ ".") = true →
      alookup key (t.remove_connection cid).expanded_schemas = none ∧
      alookup key (t.remove_connection cid).expanded_tables = none) ∧
    (t.remove_connection cid).expanded_object_categories =
      t.expanded_object_categories := by
  refine ⟨alookup_aerase_self _ _, alookup_aerase_self _ _, ?_, rfl⟩
  intro key hkey
  exact ⟨alookup_retainKeys_eq_none (by simp [hkey]) _,
    alookup_retainKeys_eq_none (by simp [hkey]) _⟩

/-- C2 witness: the amended pruning rule evaluated on the concrete
`removalTree`. -/
theorem C2_remove_connection_pruning_witness :
    alookup "c1" ((removalTree.remove_connection "c1").connections) = none ∧
    alookup "c1.public" ((removalTree.remove_connection "c1").expanded_schemas) =
      none ∧
    alookup "c1.public" ((removalTree.remove_connection "c1").expanded_tables) =
      none := by
  have h := C2_remove_connection_pruning removalTree "c1"
  exact ⟨h.1, (h.2.2.1 "c1.public" rfl).1, (h.2.2.1 "c1.public" rfl).2⟩

/-! ### Claim C6 -/

/-- C6: each of the three fetch-need drains returns the entire current queue
in order, leaves the queue empty, and an immediate second drain returns the
empty list. -/
theorem C6_drain_semantics (t : DatabaseTree) :
    (t.get_schemas_needing_tables).1 = t.schemas_needing_tables ∧
    ((t.get_schemas_needing_tables).2).schemas_needing_tables = [] ∧
    (((t.get_schemas_needing_tables).2).get_schemas_needing_tables).1 = [] ∧
    (t.get_schemas_needing_objects).1 = t.schemas_needing_objects ∧
    ((t.get_schemas_needing_objects).2).schemas_needing_objects = [] ∧
    (((t.get_schemas_needing_objects).2).get_schemas_needing_objects).1 = [] ∧
    (t.get_tables_needing_columns).1 = t.tables_needing_columns ∧
    ((t.get_tables_needing_columns).2).tables_needing_columns = [] ∧
    (((t.get_tables_needing_columns).2).get_tables_needing_columns).1 = [] :=
  ⟨rfl, rfl, rfl, rfl, rfl, rfl, rfl, rfl, rfl⟩

/-! ### Claim C7 -/

/-- C7 counterexample: `set_schemas` on an unknown connection id is not a
complete no-op — it still clears the loading flag, so a tree with
`is_loading = true` is changed. -/
theorem C7_counterexample :
    alookup "ghost" loadingTree.connections = none ∧
    loadingTree.is_loading = true ∧
    (loadingTree.set_schemas "ghost" []).is_loading = false :=
  ⟨rfl, rfl, rfl⟩

/-- C7 (amended): every cache setter called with an unknown connection id
creates no cache entry and leaves the tree unchanged, except `set_schemas`,
which additionally resets `is_loading` to `false` and changes nothing
else. -/
theorem C7_unknown_connection_setters (t : DatabaseTree)
    (cid schema table : String)
    (h : alookup cid t.connections = none) :
    (∀ tables, t.set_tables cid schema tables = t) ∧
    (∀ columns, t.set_columns cid schema table columns = t) ∧
    (∀ views, t.set_views cid schema views = t) ∧
    (∀ functions, t.set_functions cid schema functions = t) ∧
    (∀ triggers, t.set_triggers cid schema triggers = t) ∧
    (∀ sequences, t.set_sequences cid schema sequences = t) ∧
    (∀ indexes, t.set_indexes cid schema indexes = t) ∧
    (∀ counts, t.set_object_counts cid schema counts = t) ∧
    (∀ schemas, t.set_schemas cid schemas = { t with is_loading := false }) := by
  have hupd : ∀ f, t.updateConnection cid f = t := by
    intro f
    unfold DatabaseTree.updateConnection
    rw [h]
  refine ⟨?_, ?_, ?_, ?_, ?_, ?_, ?_, ?_, ?_⟩ <;> intro x
  · rw [DatabaseTree.set_tables, hupd]
  · rw [DatabaseTree.set_columns, hupd]
  · rw [DatabaseTree.set_views, hupd]
  · rw [DatabaseTree.set_functions, hupd]
  · rw [DatabaseTree.set_triggers, hupd]
  · rw [DatabaseTree.set_sequences, hupd]
  · rw [DatabaseTree.set_indexes, hupd]
  · rw [DatabaseTree.set_object_counts, hupd]
  · rw [DatabaseTree.set_schemas, hupd]

/-- C7 witness: the amended no-op rule evaluated on `loadingTree` with the
unknown id `ghost`. -/
theorem C7_unknown_connection_setters_witness :
    alookup "ghost" loadingTree.connections = none ∧
    loadingTree.set_tables "ghost" "public" [] = loadingTree ∧
    loadingTree.set_schemas "ghost" [] =
      { loadingTree with is_loading := false } := by
  have h := C7_unknown_connection_setters loadingTree "ghost" "public" "users" rfl
  exact ⟨rfl, h.1 [], h.2.2.2.2.2.2.2.2 []⟩

/-! ### Claim C8 -/

/-- C8: the pending-action channel holds at most one pair: the take-and-clear
accessor returns `some` exactly once per write and `none` thereafter, and a
second write before a drain overwrites and discards the first. -/
theorem C8_pending_action_slot (t : DatabaseTree) (a b : ConnectionAction)
    (i j : String) :
    ((t.setPendingAction a i).get_pending_action).1 = some (a, i) ∧
    (((t.setPendingAction a i).get_pending_action).2).pending_action = none ∧
    ((((t.setPendingAction a i).get_pending_action).2).get_pending_action).1 =
      none ∧
    ((t.setPendingAction a i).setPendingAction b j).pending_action =
      some (b, j) ∧
    (((t.setPendingAction a i).setPendingAction b j).get_pending_action).1 =
      some (b, j) :=
  ⟨rfl, rfl, rfl, rfl, rfl⟩

/-! ### Claim C9 -/

/-- C9 counterexample: the distinct pairs `("a.b", "c")` and `("a", "b.c")`
share the composite key `a.b.c`, so the second `set_columns` overwrites the
first and a lookup for the first pair observes the columns stored for the
second. -/
theorem C9_counterexample :
    (("a.b", "c") : String × String) ≠ ("a", "b.c") ∧
    ((columnsTree.set_columns "c1" "a.b" "c" [colX]).set_columns "c1" "a"
        "b.c" [colY]).lookupColumns "c1" "a.b" "c" = some [colY] :=
  ⟨by decide, rfl⟩

/-- C9 (amended): the columns cache is keyed by the concatenated string
`schema ++ "." ++ table`; whenever two pairs have distinct concatenations,
`set_columns` for one never disturbs the entry of the other, and a fresh
`set_columns` for a pair is observed by the corresponding lookup. -/
theorem C9_columns_key_isolation (t : DatabaseTree) (cid s1 t1 s2 t2 : String)
    (cols : List Column)
    (hkey : s1 ++ "." ++ t1 ≠ s2 ++ "." ++ t2) :
    (t.set_columns cid s2 t2 cols).lookupColumns cid s1 t1 =
      t.lookupColumns cid s1 t1 ∧
    (∀ conn, alookup cid t.connections = some conn →
      (t.set_columns cid s1 t1 cols).lookupColumns cid s1 t1 = some cols) := by
  constructor
  · unfold DatabaseTree.set_columns DatabaseTree.updateConnection
      DatabaseTree.lookupColumns
    cases hc : alookup cid t.connections with
    | none =>
      dsimp only
      rw [hc]
    | some conn =>
      dsimp only
      rw [alookup_ainsert_self]
      dsimp only [Option.bind]
      exact alookup_ainsert_ne (Ne.symm hkey) _ _
  · intro conn hc
    unfold DatabaseTree.set_columns DatabaseTree.updateConnection
      DatabaseTree.lookupColumns
    rw [hc]
    dsimp only
    rw [alookup_ainsert_self]
    dsimp only [Option.bind]
    rw [alookup_ainsert_self]

/-- C9 witness: isolation of distinct composite keys on the concrete
`columnsTree`. -/
theorem C9_columns_key_isolation_witness :
    ("public" ++ "." ++ "users" : String) ≠ "public" ++ "." ++ "orders" ∧
    (columnsTree.set_columns "c1" "public" "orders" [colX]).lookupColumns "c1"
        "public" "users" =
      columnsTree.lookupColumns "c1" "public" "users" := by
  have h := C9_columns_key_isolation columnsTree "c1" "public" "users"
    "public" "orders" [colX] (by decide)
  exact ⟨by decide, h.1⟩

/-! ### Claim C10 -/

/-- C10: `clear` empties the connections map and the four expansion maps it
owns, resets the selection and the loading flag, and leaves the three
fetch-need queues, the pending-action slot, the saved connections, the
saved-connection expansion map, and the search state unchanged; queued
entries can still be drained afterwards. -/
theorem C10_clear_frame (t : DatabaseTree) :
    (t.clear).connections = [] ∧
    (t.clear).expanded_connections = [] ∧
    (t.clear).expanded_schemas = [] ∧
    (t.clear).expanded_object_categories = [] ∧
    (t.clear).expanded_tables = [] ∧
    (t.clear).selected_item = none ∧
    (t.clear).is_loading = false ∧
    (t.clear).schemas_needing_tables = t.schemas_needing_tables ∧
    (t.clear).schemas_needing_objects = t.schemas_needing_objects ∧
    (t.clear).tables_needing_columns = t.tables_needing_columns ∧
    (t.clear).pending_action = t.pending_action ∧
    (t.clear).saved_connections = t.saved_connections ∧
    (t.clear).expanded_saved_connections = t.expanded_saved_connections ∧
    (t.clear).search_text = t.search_text ∧
    (t.clear).show_search = t.show_search ∧
    ((t.clear).get_schemas_needing_tables).1 = t.schemas_needing_tables :=
  ⟨rfl, rfl, rfl, rfl, rfl, rfl, rfl, rfl, rfl, rfl, rfl, rfl, rfl, rfl, rfl,
    rfl⟩

/-! ### Claim C1 -/

/-- C1 counterexample: for connection `c1`, schema `public`, category Views,
the Views cache entry exists (as the empty list) and the node is closed, yet
the closed-to-open click still appends `(c1, public, Views)` to the object
fetch queue — an existing cache entry does not suppress queueing for the
non-Tables categories. -/
theorem C1_counterexample :
    (∃ conn, alookup "c1" viewsCachedTree.connections = some conn ∧
      alookup "public" conn.views = some []) ∧
    viewsCachedTree.categoryExpanded "c1" "public" ObjectCategory.Views =
      false ∧
    (viewsCachedTree.clickObjectCategory "c1" "public"
        ObjectCategory.Views).schemas_needing_objects =
      [("c1", "public", ObjectCategory.Views)] :=
  ⟨⟨viewsCachedConn, rfl, rfl⟩, rfl, rfl⟩

/-- C1 (amended): on the closed-to-open transition of an object-category
node, only the Tables category consults the cache — its tuple is enqueued
exactly when the connection exists and its tables cache entry for the schema
is absent; every other category enqueues its tuple unconditionally; an
open-to-closed transition never enqueues anything. -/
theorem C1_category_queue_rule (t : DatabaseTree) (cid schema : String)
    (cat : ObjectCategory) :
    (t.categoryExpanded cid schema cat = true →
      (t.clickObjectCategory cid schema cat).schemas_needing_tables =
          t.schemas_needing_tables ∧
        (t.clickObjectCategory cid schema cat).schemas_needing_objects =
          t.schemas_needing_objects) ∧
    (t.categoryExpanded cid schema cat = false →
      (cat = ObjectCategory.Tables →
        (t.clickObjectCategory cid schema cat).schemas_needing_objects =
            t.schemas_needing_objects ∧
          ((∃ conn, alookup cid t.connections = some conn ∧
              alookup schema conn.tables = none) →
            (t.clickObjectCategory cid schema cat).schemas_needing_tables =
              t.schemas_needing_tables ++ [(cid, schema)]) ∧
          ((∀ conn, alookup cid t.connections = some conn →
              alookup schema conn.tables ≠ none) →
            (t.clickObjectCategory cid schema cat).schemas_needing_tables =
              t.schemas_needing_tables)) ∧
      (cat ≠ ObjectCategory.Tables →
        (t.clickObjectCategory cid schema cat).schemas_needing_objects =
            t.schemas_needing_objects ++ [(cid, schema, cat)] ∧
          (t.clickObjectCategory cid schema cat).schemas_needing_tables =
            t.schemas_needing_tables)) := by
  constructor
  · intro hopen
    rw [clickObjectCategory_of_open t cid schema cat hopen]
    exact ⟨rfl, rfl⟩
  · intro hclosed
    constructor
    · rintro rfl
      refine ⟨?_, ?_, ?_⟩
      · cases hc : alookup cid t.connections with
        | none =>
          rw [clickObjectCategory_of_closed_tables_noconn t cid schema hclosed hc]
        | some conn =>
          cases ht : alookup schema conn.tables with
          | none =>
            rw [clickObjectCategory_of_closed_tables_absent t cid schema conn
              hclosed hc ht]
          | some rows =>
            rw [clickObjectCategory_of_closed_tables_present t cid schema conn
              rows hclosed hc ht]
      · rintro ⟨conn, hc, ht⟩
        rw [clickObjectCategory_of_closed_tables_absent t cid schema conn
          hclosed hc ht]
      · intro hall
        cases hc : alookup cid t.connections with
        | none =>
          rw [clickObjectCategory_of_closed_tables_noconn t cid schema hclosed hc]
        | some conn =>
          cases ht : alookup schema conn.tables with
          | none => exact absurd ht (hall conn hc)
          | some rows =>
            rw [clickObjectCategory_of_closed_tables_present t cid schema conn
              rows hclosed hc ht]
    · intro hcat
      rw [clickObjectCategory_of_closed_other t cid schema cat hclosed hcat]
      exact ⟨rfl, rfl⟩

/-- C1 witness: the amended queueing rule evaluated on the concrete closed
Views node of `viewsCachedTree`. -/
theorem C1_category_queue_rule_witness :
    viewsCachedTree.categoryExpanded "c1" "public" ObjectCategory.Views =
      false ∧
    (viewsCachedTree.clickObjectCategory "c1" "public"
        ObjectCategory.Views).schemas_needing_objects =
      viewsCachedTree.schemas_needing_objects ++
        [("c1", "public", ObjectCategory.Views)] := by
  have h :=
    ((C1_category_queue_rule viewsCachedTree "c1" "public"
      ObjectCategory.Views).2 rfl).2 (by decide)
  exact ⟨rfl, h.1⟩

/-! ### Claim C3 -/

/-- C3: with the Tables cache entry for the schema absent and the category
node closed, the closed-to-open click enqueues exactly one
`(connection, schema)` tuple; closing and re-opening before a drain enqueues
a second identical tuple (no deduplication); and once `set_tables` has
filled the cache, closing and re-opening enqueues nothing more. -/
theorem C3_table_fetch_protocol (t : DatabaseTree) (cid schema : String)
    (conn : ConnectionNode)
    (hconn : alookup cid t.connections = some conn)
    (habsent : alookup schema conn.tables = none)
    (hclosed : t.categoryExpanded cid schema ObjectCategory.Tables = false) :
    (t.clickObjectCategory cid schema ObjectCategory.Tables).schemas_needing_tables =
        t.schemas_needing_tables ++ [(cid, schema)] ∧
    (((t.clickObjectCategory cid schema
          ObjectCategory.Tables).clickObjectCategory cid schema
          ObjectCategory.Tables).clickObjectCategory cid schema
          ObjectCategory.Tables).schemas_needing_tables =
        t.schemas_needing_tables ++ [(cid, schema), (cid, schema)] ∧
    ∀ rows : List Table,
      ((((t.clickObjectCategory cid schema
            ObjectCategory.Tables).set_tables cid schema
            rows).clickObjectCategory cid schema
            ObjectCategory.Tables).clickObjectCategory cid schema
            ObjectCategory.Tables).schemas_needing_tables =
        t.schemas_needing_tables ++ [(cid, schema)] := by
  have h1 := clickObjectCategory_of_closed_tables_absent t cid schema conn
    hclosed hconn habsent
  refine ⟨?_, ?_, ?_⟩
  · rw [h1]
  · have hopen1 : (t.clickObjectCategory cid schema
        ObjectCategory.Tables).categoryExpanded cid schema
        ObjectCategory.Tables = true := by
      rw [h1]
      simp [DatabaseTree.categoryExpanded, categoryDebugName,
        alookup_ainsert_self]
    have h2 := clickObjectCategory_of_open _ cid schema ObjectCategory.Tables
      hopen1
    have hclosed2 : ((t.clickObjectCategory cid schema
        ObjectCategory.Tables).clickObjectCategory cid schema
        ObjectCategory.Tables).categoryExpanded cid schema
        ObjectCategory.Tables = false := by
      rw [h2]
      simp [DatabaseTree.categoryExpanded, categoryDebugName,
        alookup_ainsert_self]
    have hconn2 : alookup cid ((t.clickObjectCategory cid schema
        ObjectCategory.Tables).clickObjectCategory cid schema
        ObjectCategory.Tables).connections = some conn := by
      rw [h2, h1]
      exact hconn
    have h3 := clickObjectCategory_of_closed_tables_absent _ cid schema conn
      hclosed2 hconn2 habsent
    rw [h3, h2, h1]
    simp
  · intro rows
    have hconn1 : alookup cid (t.clickObjectCategory cid schema
        ObjectCategory.Tables).connections = some conn := by
      rw [h1]
      exact hconn
    have hset : (t.clickObjectCategory cid schema
        ObjectCategory.Tables).set_tables cid schema rows =
      { t.clickObjectCategory cid schema ObjectCategory.Tables with
        connections :=
          ainsert cid { conn with tables := ainsert schema rows conn.tables }
            (t.clickObjectCategory cid schema
              ObjectCategory.Tables).connections } := by
      unfold DatabaseTree.set_tables DatabaseTree.updateConnection
      rw [hconn1]
    have hopen1 : ((t.clickObjectCategory cid schema
        ObjectCategory.Tables).set_tables cid schema
        rows).categoryExpanded cid schema ObjectCategory.Tables = true := by
      rw [hset, h1]
      simp [DatabaseTree.categoryExpanded, categoryDebugName,
        alookup_ainsert_self]
    have h2 := clickObjectCategory_of_open _ cid schema ObjectCategory.Tables
      hopen1
    have hclosed2 : (((t.clickObjectCategory cid schema
        ObjectCategory.Tables).set_tables cid schema
        rows).clickObjectCategory cid schema
        ObjectCategory.Tables).categoryExpanded cid schema
        ObjectCategory.Tables = false := by
      rw [h2]
      simp [DatabaseTree.categoryExpanded, categoryDebugName,
        alookup_ainsert_self]
    have hconn2 : alookup cid (((t.clickObjectCategory cid schema
        ObjectCategory.Tables).set_tables cid schema
        rows).clickObjectCategory cid schema
        ObjectCategory.Tables).connections =
        some { conn with tables := ainsert schema rows conn.tables } := by
      rw [h2, hset]
      exact alookup_ainsert_self _ _ _
    have hpresent : alookup schema
        ({ conn with tables := ainsert schema rows conn.tables }).tables =
        some rows := alookup_ainsert_self _ _ _
    have h3 := clickObjectCategory_of_closed_tables_present _ cid schema _
      rows hclosed2 hconn2 hpresent
    rw [h3, h2, hset, h1]

/-- C3 witness: the fetch protocol evaluated on the concrete `tablesTree`. -/
theorem C3_table_fetch_protocol_witness :
    alookup "c1" tablesTree.connections = some emptyTablesConn ∧
    alookup "public" emptyTablesConn.tables = none ∧
    tablesTree.categoryExpanded "c1" "public" ObjectCategory.Tables = false ∧
    (tablesTree.clickObjectCategory "c1" "public"
        ObjectCategory.Tables).schemas_needing_tables =
      tablesTree.schemas_needing_tables ++ [("c1", "public")] :=
  ⟨rfl, rfl, rfl,
    (C3_table_fetch_protocol tablesTree "c1" "public" emptyTablesConn rfl rfl
      rfl).1⟩

/-! ### Claim C4 -/

/-- C4 counterexample: with the active filter `users`, the table leaf
`users` matches and is rendered, and its column leaf `x` is rendered as well
even though `x` does not contain the filter text — the filter is not applied
at column granularity. -/
theorem C4_counterexample :
    searchTree.search_text = "users" ∧
    searchTree.matches_search "users" = true ∧
    searchTree.renderedNamesInCategory "c1" "public" ObjectCategory.Tables =
      ["users"] ∧
    searchTree.matches_search "x" = false ∧
    (searchTree.renderedColumns "c1" "public" usersTable).map Column.name =
      ["x"] :=
  ⟨rfl, rfl, rfl, rfl, rfl⟩

/-- C4 (amended): under the six object-list categories a leaf is rendered
iff it is cached and (with an active filter) its lowered name contains the
lowered filter text; column leaves, by contrast, are rendered straight from
the columns cache with no filtering at all. -/
theorem C4_search_filter_scope (t : DatabaseTree) (cid schema : String)
    (cat : ObjectCategory) (name : String) :
    (name ∈ t.renderedNamesInCategory cid schema cat ↔
      name ∈ t.cachedNamesInCategory cid schema cat ∧
        (t.search_text.data = [] ∨
          ∃ pre post, name.data.map Char.toLower =
            pre ++ t.search_text.data.map Char.toLower ++ post)) ∧
    (∀ table : Table, t.renderedColumns cid schema table =
      ((alookup cid t.connections).bind
        (fun conn2 => alookup (schema ++ "." ++ table.name)
          conn2.columns)).getD []) := by
  constructor
  · rw [← matches_search_eq_true_iff]
    unfold DatabaseTree.renderedNamesInCategory
      DatabaseTree.cachedNamesInCategory
    cases hc : alookup cid t.connections with
    | none => simp
    | some conn =>
      dsimp only
      cases cat with
      | Tables =>
        cases ht : alookup schema conn.tables with
        | none => simp
        | some l =>
          dsimp only
          simp only [Option.getD_some]
          exact mem_filtered_names t l Table.name name
      | Views =>
        cases ht : alookup schema conn.views with
        | none => simp
        | some l =>
          dsimp only
          simp only [Option.getD_some]
          exact mem_filtered_names t l View.name name
      | Functions =>
        cases ht : alookup schema conn.functions with
        | none => simp
        | some l =>
          dsimp only
          simp only [Option.getD_some]
          exact mem_filtered_names t l Function.name name
      | Triggers =>
        cases ht : alookup schema conn.triggers with
        | none => simp
        | some l =>
          dsimp only
          simp only [Option.getD_some]
          exact mem_filtered_names t l Trigger.name name
      | Sequences =>
        cases ht : alookup schema conn.sequences with
        | none => simp
        | some l =>
          dsimp only
          simp only [Option.getD_some]
          exact mem_filtered_names t l Sequence.name name
      | Indexes =>
        cases ht : alookup schema conn.indexes with
        | none => simp
        | some l =>
          dsimp only
          simp only [Option.getD_some]
          exact mem_filtered_names t l Index.name name
      | SystemCatalog => simp
  · intro table
    unfold DatabaseTree.renderedColumns
    cases hc : alookup cid t.connections with
    | none => rfl
    | some conn => rfl

/-- C4 witness: the amended filter-scope rule evaluated for the table leaf
`users` on the concrete `searchTree`. -/
theorem C4_search_filter_scope_witness :
    ("users" ∈ searchTree.renderedNamesInCategory "c1" "public"
        ObjectCategory.Tables ↔
      "users" ∈ searchTree.cachedNamesInCategory "c1" "public"
          ObjectCategory.Tables ∧
        (searchTree.search_text.data = [] ∨
          ∃ pre post, "users".data.map Char.toLower =
            pre ++ searchTree.search_text.data.map Char.toLower ++ post)) :=
  (C4_search_filter_scope searchTree "c1" "public" ObjectCategory.Tables
    "users").1

/-! ### Claim C5 -/

/-- C5: a category node is rendered under a schema iff its aggregate count
from `ObjectCounts` is nonzero and, when a filter is active, some
already-cached member of the category matches the filter; a category whose
objects are not yet cached is hidden while a filter is active, and a
zero-count category is never rendered.  Views aggregates regular plus
materialized views; Functions aggregates functions plus procedures. -/
theorem C5_category_visibility (t : DatabaseTree) (cid schema : String)
    (cat : ObjectCategory) :
    (t.categoryRendered cid schema cat (t.countsFor cid schema) = true ↔
      categoryCount cat (t.countsFor cid schema) ≠ 0 ∧
        (t.search_text.data = [] ∨
          ∃ name ∈ t.cachedNamesInCategory cid schema cat,
            t.matches_search name = true)) ∧
    (∀ counts : ObjectCounts,
      categoryCount ObjectCategory.Views counts =
          counts.views + counts.materialized_views ∧
        categoryCount ObjectCategory.Functions counts =
          counts.functions + counts.procedures) := by
  constructor
  · rw [categoryRendered_eq_true_iff, category_has_matches_iff]
    tauto
  · intro counts
    exact ⟨rfl, rfl⟩

/-- C5 witness: on `viewsCachedTree` no object counts are cached, so the
Views count is zero and the Views category is not rendered. -/
theorem C5_category_visibility_witness :
    viewsCachedTree.categoryRendered "c1" "public" ObjectCategory.Views
      (viewsCachedTree.countsFor "c1" "public") = false := by
  have h := (C5_category_visibility viewsCachedTree "c1" "public"
    ObjectCategory.Views).1
  cases hb : viewsCachedTree.categoryRendered "c1" "public"
      ObjectCategory.Views (viewsCachedTree.countsFor "c1" "public") with
  | false => rfl
  | true => exact absurd rfl (h.mp hb).1

end RBeaver
